import Mathlib

/-!
Verification of the stadium-calendars event pipeline.

This file gives a shallow embedding, in Lean 4, of the three Python modules
`src/ics.py`, `src/sources.py` and `src/build_calendars.py`, and proves or
refutes the stated properties of the pipeline against that embedding.

Modelling conventions:
* Python `datetime` values are embedded as `PyDateTime` (civil fields plus an
  optional UTC offset in minutes; `none` models a naive datetime).  Python's
  proleptic-Gregorian ordinal arithmetic (`date.toordinal`/`date.fromordinal`,
  used by `datetime + timedelta`) is embedded as `toOrdinal`/`fromOrdinal`.
* Machine integers do not occur: Python integers are unbounded, as is `Int`.
* External collaborators (the `requests` transport, BeautifulSoup, `dateutil`,
  `hashlib`) are modelled at the boundary where the repository's code consumes
  them; each such model carries a doc comment saying exactly what is modelled.
* Fallible Python code is embedded with `Option`/`Except`; statements that a
  Python statement raises are embedded as `Except.error` values.
-/

namespace StadiumCalendars

/-! ### Proleptic Gregorian calendar arithmetic

Embeds CPython's `datetime._is_leap`, `_days_before_year`, `_days_before_month`,
`date.toordinal` and `date.fromordinal` (the primitives behind
`datetime + timedelta`, `datetime.astimezone` and aware-datetime comparison). -/

/-- CPython `datetime._is_leap`: `year % 4 == 0 and (year % 100 != 0 or year % 400 == 0)`.
Python `%` on a positive modulus agrees with `Int.emod`. -/
def pyIsLeap (y : Int) : Bool :=
  decide ((y % 4 = 0 ∧ y % 100 ≠ 0) ∨ y % 400 = 0)

/-- CPython `datetime._days_before_year`:
`(y-1)*365 + (y-1)//4 - (y-1)//100 + (y-1)//400`; Python floor division on a
positive divisor agrees with `Int.ediv`. -/
def daysBeforeYear (y : Int) : Int :=
  365 * (y - 1) + (y - 1) / 4 - (y - 1) / 100 + (y - 1) / 400

/-- CPython `datetime._days_before_month`: cumulative day counts per month,
plus one for a leap year after February. -/
def daysBeforeMonth (leap : Bool) (m : Int) : Int :=
  (if m ≤ 1 then 0 else if m = 2 then 31 else if m = 3 then 59
   else if m = 4 then 90 else if m = 5 then 120 else if m = 6 then 151
   else if m = 7 then 181 else if m = 8 then 212 else if m = 9 then 243
   else if m = 10 then 273 else if m = 11 then 304 else 334)
  + (if leap ∧ 2 < m then 1 else 0)

/-- CPython `date.toordinal`: day number in the proleptic Gregorian calendar,
with `0001-01-01` as day 1. -/
def toOrdinal (y m d : Int) : Int :=
  daysBeforeYear y + daysBeforeMonth (pyIsLeap y) m + d

/-- Month of a 1-based day-of-year (the month-recovery step of
CPython `date.fromordinal`, written as a direct table search). -/
def monthOfDoy (leap : Bool) (doy : Int) : Int :=
  let k : Int := if leap then 1 else 0
  if doy ≤ 31 then 1
  else if doy ≤ 59 + k then 2
  else if doy ≤ 90 + k then 3
  else if doy ≤ 120 + k then 4
  else if doy ≤ 151 + k then 5
  else if doy ≤ 181 + k then 6
  else if doy ≤ 212 + k then 7
  else if doy ≤ 243 + k then 8
  else if doy ≤ 273 + k then 9
  else if doy ≤ 304 + k then 10
  else if doy ≤ 334 + k then 11
  else 12

/-- CPython `date.fromordinal` (`_ord2ymd`): recover `(year, month, day)` from a
proleptic Gregorian ordinal via the 400/100/4/1-year division chain, with the
end-of-cycle fixup `n1 == 4 or n100 == 4 -> Dec 31 of the previous year`. -/
def fromOrdinal (g : Int) : Int × Int × Int :=
  let n := g - 1
  let n400 := n / 146097
  let r1 := n % 146097
  let n100 := r1 / 36524
  let r2 := r1 % 36524
  let n4 := r2 / 1461
  let r3 := r2 % 1461
  let n1 := r3 / 365
  let r4 := r3 % 365
  let y := 400 * n400 + 100 * n100 + 4 * n4 + n1 + 1
  if n1 = 4 ∨ n100 = 4 then (y - 1, 12, 31)
  else
    let doy := r4 + 1
    let leap := pyIsLeap y
    let m := monthOfDoy leap doy
    (y, m, doy - daysBeforeMonth leap m)

/-- Round trip: `toordinal` is a left inverse of `fromordinal` on every ordinal.
This is the fact that makes `datetime + timedelta` act as a plain shift on the
absolute timeline. -/
theorem toOrdinal_fromOrdinal (g y m d : Int) (h : fromOrdinal g = (y, m, d)) :
    toOrdinal y m d = g := by
  rw [fromOrdinal] at h
  dsimp only at h
  set n400 := (g - 1) / 146097 with hn400
  set r1 := (g - 1) % 146097 with hr1
  set n100 := r1 / 36524 with hn100
  set r2 := r1 % 36524 with hr2
  set n4 := r2 / 1461 with hn4
  set r3 := r2 % 1461 with hr3
  set n1 := r3 / 365 with hn1
  set r4 := r3 % 365 with hr4
  have hb1 : 0 ≤ r1 ∧ r1 ≤ 146096 := by omega
  have hb2 : 0 ≤ n100 ∧ n100 ≤ 4 := by omega
  have hb3 : 0 ≤ r2 ∧ r2 ≤ 36523 := by omega
  have hb4 : 0 ≤ n4 ∧ n4 ≤ 24 := by omega
  have hb5 : 0 ≤ r3 ∧ r3 ≤ 1460 := by omega
  have hb6 : 0 ≤ n1 ∧ n1 ≤ 4 := by omega
  have hb7 : 0 ≤ r4 ∧ r4 ≤ 364 := by omega
  have hchain : g - 1 = 146097 * n400 + 36524 * n100 + 1461 * n4 + 365 * n1 + r4 := by omega
  split at h
  · rename_i hfix
    simp only [Prod.mk.injEq] at h
    obtain ⟨rfl, rfl, rfl⟩ := h
    rw [toOrdinal]
    have h12 : ∀ leap : Bool, daysBeforeMonth leap 12 = 334 + (if leap then 1 else 0) := by
      intro leap; rw [daysBeforeMonth]; norm_num
    rw [h12, daysBeforeYear, pyIsLeap]
    simp only [decide_eq_true_eq]
    rcases hfix with hf | hf
    · have hr40 : r4 = 0 := by omega
      have hn423 : n4 ≤ 23 := by omega
      have hq4 : (400 * n400 + 100 * n100 + 4 * n4 + n1 + 1 - 1 - 1) / 4
          = 100 * n400 + 25 * n100 + n4 := by omega
      have hq100 : (400 * n400 + 100 * n100 + 4 * n4 + n1 + 1 - 1 - 1) / 100
          = 4 * n400 + n100 := by omega
      have hq400 : (400 * n400 + 100 * n100 + 4 * n4 + n1 + 1 - 1 - 1) / 400
          = n400 := by omega
      split_ifs with hleap <;> omega
    · have : r2 = 0 ∧ n4 = 0 ∧ n1 = 0 ∧ r4 = 0 := by omega
      obtain ⟨h2, h4, h1, h0⟩ := this
      have hq4 : (400 * n400 + 100 * n100 + 4 * n4 + n1 + 1 - 1 - 1) / 4
          = 100 * n400 + 99 := by omega
      have hq100 : (400 * n400 + 100 * n100 + 4 * n4 + n1 + 1 - 1 - 1) / 100
          = 4 * n400 + 3 := by omega
      have hq400 : (400 * n400 + 100 * n100 + 4 * n4 + n1 + 1 - 1 - 1) / 400
          = n400 := by omega
      split_ifs with hleap <;> omega
  · rename_i hfix
    simp only [Prod.mk.injEq] at h
    obtain ⟨rfl, rfl, rfl⟩ := h
    rw [toOrdinal]
    generalize daysBeforeMonth _ _ = b
    rw [daysBeforeYear]
    have hn13 : n1 ≤ 3 := by omega
    have hn1003 : n100 ≤ 3 := by omega
    have hq4 : (400 * n400 + 100 * n100 + 4 * n4 + n1 + 1 - 1) / 4
        = 100 * n400 + 25 * n100 + n4 := by omega
    have hq100 : (400 * n400 + 100 * n100 + 4 * n4 + n1 + 1 - 1) / 100
        = 4 * n400 + n100 := by omega
    have hq400 : (400 * n400 + 100 * n100 + 4 * n4 + n1 + 1 - 1) / 400
        = n400 := by omega
    omega

/-! ### Python datetime values -/

/-- A Python `datetime.datetime`: civil fields plus the `tzinfo` UTC offset in
minutes (`none` models a naive datetime, exactly `tzinfo is None`). -/
structure PyDateTime where
  year : Int
  month : Int
  day : Int
  hour : Int
  minute : Int
  second : Int
  offsetMinutes : Option Int
deriving Repr, DecidableEq

/-- Position of a datetime on the absolute timeline, in seconds
(seconds since `0001-01-01T00:00:00` UTC, minus one day's worth).  A naive
datetime is placed as if it were UTC — the exact convention
`src/ics.py:_dt_to_ics` applies when serializing (`replace(tzinfo=utc)`).
Aware Python datetimes compare and subtract by this quantity. -/
def instantSec (dt : PyDateTime) : Int :=
  toOrdinal dt.year dt.month dt.day * 86400
    + dt.hour * 3600 + dt.minute * 60 + dt.second
    - (dt.offsetMinutes.getD 0) * 60

/-- Date part of `datetime + timedelta(minutes=k)`: CPython converts the date to
its ordinal, adds the day carry, and converts back with `fromordinal`. -/
def addMinutesDate (dt : PyDateTime) (k : Int) : Int × Int × Int :=
  fromOrdinal (toOrdinal dt.year dt.month dt.day + (dt.hour * 60 + dt.minute + k) / 1440)

/-- Python `dt + timedelta(minutes=k)`: wall-clock shift keeping `tzinfo`.
The repository only ever adds `timedelta(hours=2, minutes=30)`, i.e. `k = 150`. -/
def addMinutes (dt : PyDateTime) (k : Int) : PyDateTime :=
  ⟨(addMinutesDate dt k).1, (addMinutesDate dt k).2.1, (addMinutesDate dt k).2.2,
   (dt.hour * 60 + dt.minute + k) % 1440 / 60,
   (dt.hour * 60 + dt.minute + k) % 1440 % 60,
   dt.second, dt.offsetMinutes⟩

/-- Adding `k` minutes moves the absolute timeline position by exactly `60 * k`
seconds; in particular the result of adding a positive duration is strictly
later than its argument. -/
theorem instantSec_addMinutes (dt : PyDateTime) (k : Int) :
    instantSec (addMinutes dt k) = instantSec dt + 60 * k := by
  have h := toOrdinal_fromOrdinal
    (toOrdinal dt.year dt.month dt.day + (dt.hour * 60 + dt.minute + k) / 1440)
    (addMinutesDate dt k).1 (addMinutesDate dt k).2.1 (addMinutesDate dt k).2.2 rfl
  simp only [instantSec, addMinutes]
  omega

/-! ### Python string primitives used by the pipeline -/

/-- Python `str.lower()` (the inputs the pipeline lowercases are ASCII). -/
def pyLower (s : String) : String :=
  String.mk (s.data.map Char.toLower)

/-- Python whitespace for `str.strip()` (space, tab, LF, CR, VT, FF). -/
def pyIsWs (c : Char) : Bool :=
  c = ' ' ∨ c = '\t' ∨ c = '\n' ∨ c = '\r' ∨ c = '\x0b' ∨ c = '\x0c'

/-- Python `str.strip()`: drop whitespace from both ends. -/
def pyStrip (s : String) : String :=
  String.mk (((s.data.dropWhile pyIsWs).reverse.dropWhile pyIsWs).reverse)

/-- One step of the substring search behind Python's `sub in s`. -/
def pyInAux (needle : List Char) : List Char → Bool
  | [] => needle.isPrefixOf []
  | c :: rest => needle.isPrefixOf (c :: rest) || pyInAux needle rest

/-- Python `sub in s` membership test on strings. -/
def pyInStr (sub s : String) : Bool :=
  pyInAux sub.data s.data

/-- Expansion step for Python's single-character `str.replace`. -/
def replaceCharAux (c : Char) (r : List Char) : List Char → List Char
  | [] => []
  | x :: rest => (if x = c then r else [x]) ++ replaceCharAux c r rest

/-- Python `s.replace(c, r)` where the needle `c` is a single character (every
`replace` in `src/ics.py:_ics_escape` has a one-character needle). -/
def replaceChar (s : String) (c : Char) (r : String) : String :=
  String.mk (replaceCharAux c r.data s.data)

/-! ### Date parsing (external collaborator `dateutil.parser.parse`)

The repository delegates all date-string parsing to `dateutil`.  Modelled from
the spec: "a permissive date-string parser" consumed as a collaborator; it is
embedded here on the two concrete grammars the sources feed it — the fixtur.es
shape `D Mon YYYY H:MM +HH:MM` and ISO-8601 `YYYY-MM-DDTHH:MM:SS[±HH:MM|Z]` —
with calendar validation (month, day-in-month, hour, minute, second ranges) as
`dateutil`/`datetime` perform it.  A string outside both grammars is reported
as a parse failure (`none`), which the callers catch. -/

/-- Length of a leading run of decimal digits, and its value and the rest. -/
def munchDigits : List Char → Nat × Nat × List Char
  | [] => (0, 0, [])
  | c :: rest =>
    if c.isDigit then
      let (n, v, r) := munchDigits rest
      (n + 1, (c.toNat - '0'.toNat) * 10 ^ n + v, r)
    else (0, 0, c :: rest)

/-- Length of a leading run of whitespace, and the rest. -/
def munchWs : List Char → Nat × List Char
  | [] => (0, [])
  | c :: rest =>
    if pyIsWs c then
      let (n, r) := munchWs rest
      (n + 1, r)
    else (0, c :: rest)

/-- Leading run of ASCII letters, and the rest. -/
def munchAlpha : List Char → List Char × List Char
  | [] => ([], [])
  | c :: rest =>
    if c.isAlpha then
      let (a, r) := munchAlpha rest
      (c :: a, r)
    else ([], c :: rest)

/-- Three-letter English month abbreviations, case-insensitively, as `dateutil`
resolves them. -/
def monthOfAbbrev (s : String) : Option Int :=
  match pyLower s with
  | "jan" => some 1 | "feb" => some 2 | "mar" => some 3 | "apr" => some 4
  | "may" => some 5 | "jun" => some 6 | "jul" => some 7 | "aug" => some 8
  | "sep" => some 9 | "oct" => some 10 | "nov" => some 11 | "dec" => some 12
  | _ => none

/-- Number of days in a month of a given year. -/
def daysInMonth (y m : Int) : Int :=
  if m = 2 then (if pyIsLeap y then 29 else 28)
  else if m = 4 ∨ m = 6 ∨ m = 9 ∨ m = 11 then 30
  else 31

/-- Validity of civil datetime fields, as `datetime.datetime` enforces. -/
def fieldsValid (y m d h mi s : Int) : Bool :=
  decide (1 ≤ m ∧ m ≤ 12 ∧ 1 ≤ d ∧ 0 ≤ h ∧ h ≤ 23 ∧ 0 ≤ mi ∧ mi ≤ 59
    ∧ 0 ≤ s ∧ s ≤ 59 ∧ 1 ≤ y) && decide (d ≤ daysInMonth y m)

/-- Parse a signed `±HH:MM` UTC offset; must consume the whole rest. -/
def parseOffsetTail (cs : List Char) : Option Int :=
  match cs with
  | sign :: rest =>
    if sign = '+' ∨ sign = '-' then
      let (nh, vh, r1) := munchDigits rest
      if nh = 2 then
        match r1 with
        | ':' :: r2 =>
          let (nm, vm, r3) := munchDigits r2
          if nm = 2 ∧ r3 = [] then
            some ((if sign = '-' then -1 else 1) * (60 * (vh : Int) + (vm : Int)))
          else none
        | _ => none
      else none
    else none
  | [] => none

/-- Parse the fixtur.es datetime shape `D Mon YYYY H:MM +HH:MM`
(e.g. `"11 Jan 2026 12:00 +00:00"`). -/
def parseFixturesDtStr (s : String) : Option PyDateTime :=
  let (nd, d, r1) := munchDigits s.data
  if 1 ≤ nd ∧ nd ≤ 2 then
    let (w1, r2) := munchWs r1
    if 1 ≤ w1 then
      let (ab, r3) := munchAlpha r2
      match monthOfAbbrev (String.mk ab) with
      | some m =>
        let (ny, y, r4) := munchDigits ((munchWs r3).2)
        if ny = 4 ∧ 1 ≤ (munchWs r3).1 then
          let (nh, h, r5) := munchDigits ((munchWs r4).2)
          if (1 ≤ nh ∧ nh ≤ 2) ∧ 1 ≤ (munchWs r4).1 then
            match r5 with
            | ':' :: r6 =>
              let (nmi, mi, r7) := munchDigits r6
              if nmi = 2 ∧ 1 ≤ (munchWs r7).1 then
                match parseOffsetTail ((munchWs r7).2) with
                | some off =>
                  if fieldsValid y m d h mi 0 then
                    some ⟨y, m, d, h, mi, 0, some off⟩
                  else none
                | none => none
              else none
            | _ => none
          else none
        else none
      | none => none
    else none
  else none

/-- Parse ISO-8601 `YYYY-MM-DDTHH:MM:SS` with optional `±HH:MM` or `Z` suffix. -/
def parseIsoDtStr (s : String) : Option PyDateTime :=
  let (ny, y, r1) := munchDigits s.data
  if ny = 4 then
    match r1 with
    | '-' :: r2 =>
      let (nm, m, r3) := munchDigits r2
      if nm = 2 then
        match r3 with
        | '-' :: r4 =>
          let (nd, d, r5) := munchDigits r4
          if nd = 2 then
            match r5 with
            | 'T' :: r6 =>
              let (nh, h, r7) := munchDigits r6
              if nh = 2 then
                match r7 with
                | ':' :: r8 =>
                  let (nmi, mi, r9) := munchDigits r8
                  if nmi = 2 then
                    match r9 with
                    | ':' :: r10 =>
                      let (ns, sec, r11) := munchDigits r10
                      if ns = 2 then
                        if fieldsValid y m d h mi sec then
                          match r11 with
                          | [] => some ⟨y, m, d, h, mi, sec, none⟩
                          | ['Z'] => some ⟨y, m, d, h, mi, sec, some 0⟩
                          | _ =>
                            match parseOffsetTail r11 with
                            | some off => some ⟨y, m, d, h, mi, sec, some off⟩
                            | none => none
                        else none
                      else none
                    | _ => none
                  else none
                | _ => none
              else none
            | _ => none
          else none
        | _ => none
      else none
    | _ => none
  else none

/-- The `dateutil.parser.parse` model: try the fixtur.es shape, then ISO-8601. -/
def dtparse (s : String) : Option PyDateTime :=
  match parseFixturesDtStr s with
  | some dt => some dt
  | none => parseIsoDtStr s

/-! ### Python datetime comparison

Python compares two offset-aware datetimes by their position on the absolute
timeline, two offset-naive datetimes lexicographically by civil fields, and
raises `TypeError` ("can't compare offset-naive and offset-aware datetimes")
between a naive and an aware value.  `sorted` compares adjacent elements while
detecting runs, so sorting any list holding both a naive and an aware key
raises; the lemmas here show that on the values `datetime` can actually hold
(valid civil fields) the naive lexicographic order agrees with the absolute
timeline order. -/

/-- Python exceptions the pipeline can raise. -/
inductive PyErr where
  | frozenInstanceError
  | typeErrorUnexpectedKwarg (name : String)
  | typeErrorNaiveAware
deriving Repr, DecidableEq

/-- Civil-field ranges every constructible Python `datetime` satisfies (the
`datetime` constructor validates them). -/
def dtValid (dt : PyDateTime) : Prop :=
  1 ≤ dt.month ∧ dt.month ≤ 12 ∧ 1 ≤ dt.day ∧ dt.day ≤ daysInMonth dt.year dt.month
    ∧ 0 ≤ dt.hour ∧ dt.hour ≤ 23 ∧ 0 ≤ dt.minute ∧ dt.minute ≤ 59
    ∧ 0 ≤ dt.second ∧ dt.second ≤ 59

/-- Python's comparison of two offset-naive datetimes: lexicographic on the
civil fields (microseconds are always 0 in this pipeline). -/
def naiveDtLe (a b : PyDateTime) : Prop :=
  a.year < b.year ∨ (a.year = b.year ∧ (a.month < b.month ∨ (a.month = b.month ∧
    (a.day < b.day ∨ (a.day = b.day ∧ (a.hour < b.hour ∨ (a.hour = b.hour ∧
      (a.minute < b.minute ∨ (a.minute = b.minute ∧ a.second ≤ b.second)))))))))

instance (a b : PyDateTime) : Decidable (naiveDtLe a b) :=
  inferInstanceAs (Decidable (_ ∨ _))

/-- The year-count prefix sums are monotone. -/
theorem daysBeforeYear_mono {y1 y2 : Int} (h : y1 ≤ y2) :
    daysBeforeYear y1 ≤ daysBeforeYear y2 := by
  rw [daysBeforeYear, daysBeforeYear]
  omega

/-- One year advances the prefix sum by that year's length. -/
theorem daysBeforeYear_succ (y : Int) :
    daysBeforeYear (y + 1) = daysBeforeYear y + 365 + (if pyIsLeap y then 1 else 0) := by
  rw [daysBeforeYear, daysBeforeYear, pyIsLeap]
  simp only [decide_eq_true_eq]
  split_ifs with h <;> omega

/-- Month prefix sums are nonnegative from January on. -/
theorem daysBeforeMonth_nonneg (leap : Bool) (m : Int) (h : 1 ≤ m) :
    0 ≤ daysBeforeMonth leap m := by
  rw [daysBeforeMonth]
  cases leap <;>
    simp only [Bool.false_eq_true, eq_self_iff_true, false_and, true_and, if_false] <;>
    omega

/-- A valid day of a valid month stays within the year. -/
theorem toOrdinal_le_year_end (y m d : Int) (h1 : 1 ≤ m) (h2 : m ≤ 12)
    (h3 : d ≤ daysInMonth y m) :
    toOrdinal y m d ≤ daysBeforeYear y + 365 + (if pyIsLeap y then 1 else 0) := by
  rw [daysInMonth] at h3
  rw [toOrdinal, daysBeforeMonth]
  cases hpl : pyIsLeap y <;>
    simp only [hpl, eq_self_iff_true, Bool.false_eq_true, false_and, true_and,
      if_false, if_true] at h3 ⊢ <;>
    omega

/-- Every date at or after the first of a month lies after the year start. -/
theorem toOrdinal_pos_start (y m d : Int) (h1 : 1 ≤ m) (hd : 1 ≤ d) :
    daysBeforeYear y + 1 ≤ toOrdinal y m d := by
  rw [toOrdinal]
  have := daysBeforeMonth_nonneg (pyIsLeap y) m h1
  omega

/-- A valid day of an earlier month ends before a later month begins. -/
theorem daysBeforeMonth_chain (y m1 m2 d1 : Int) (h1 : 1 ≤ m1) (h2 : m1 < m2)
    (h3 : m2 ≤ 12) (hd1 : d1 ≤ daysInMonth y m1) :
    daysBeforeMonth (pyIsLeap y) m1 + d1 ≤ daysBeforeMonth (pyIsLeap y) m2 := by
  rw [daysInMonth] at hd1
  rw [daysBeforeMonth, daysBeforeMonth]
  cases hpl : pyIsLeap y <;>
    simp only [hpl, eq_self_iff_true, Bool.false_eq_true, false_and, true_and,
      if_false, if_true] at hd1 ⊢ <;>
    omega

/-- On valid civil fields, the lexicographic (naive) datetime order implies
the absolute timeline order — the sense in which a sorted all-naive calendar
is also sorted by start instant. -/
theorem instantSec_le_of_naive_lex (a b : PyDateTime)
    (hna : a.offsetMinutes = none) (hnb : b.offsetMinutes = none)
    (hva : dtValid a) (hvb : dtValid b) (h : naiveDtLe a b) :
    instantSec a ≤ instantSec b := by
  obtain ⟨ya, ma, da, hha, mia, sa, oa⟩ := a
  obtain ⟨yb, mb, db, hhb, mib, sb, ob⟩ := b
  rw [dtValid] at hva hvb
  rw [naiveDtLe] at h
  rw [instantSec, instantSec]
  dsimp only at *
  subst hna
  subst hnb
  simp only [Option.getD_none]
  obtain ⟨hm1a, hm2a, hd1a, hd2a, hh1a, hh2a, hmi1a, hmi2a, hs1a, hs2a⟩ := hva
  obtain ⟨hm1b, hm2b, hd1b, hd2b, hh1b, hh2b, hmi1b, hmi2b, hs1b, hs2b⟩ := hvb
  rcases h with hy | ⟨hy, h⟩
  · have h1 := toOrdinal_le_year_end ya ma da hm1a hm2a hd2a
    have h2 := daysBeforeYear_succ ya
    have h3 := daysBeforeYear_mono (show ya + 1 ≤ yb by omega)
    have h4 := toOrdinal_pos_start yb mb db hm1b hd1b
    omega
  · subst hy
    rcases h with hm | ⟨hm, h⟩
    · have hch := daysBeforeMonth_chain ya ma mb da hm1a hm hm2b hd2a
      rw [toOrdinal, toOrdinal]
      omega
    · subst hm
      rcases h with hd | ⟨hd, h⟩
      · rw [toOrdinal, toOrdinal]
        omega
      · subst hd
        omega

/-! ### The `src/ics.py` module -/

/-- Zero-padded decimal rendering of a nonnegative integer, width `w`
(CPython `%02d`-style padding as used by `isoformat` and `strftime`). -/
def padNum (w : Nat) (n : Int) : String :=
  String.mk (List.replicate (w - (toString n.natAbs).length) '0') ++ toString n.natAbs

/-- Rendering of a UTC offset as `±HH:MM`, as `datetime.isoformat` emits it. -/
def offsetIso (off : Int) : String :=
  (if off < 0 then "-" else "+") ++ padNum 2 ((off.natAbs : Int) / 60)
    ++ ":" ++ padNum 2 ((off.natAbs : Int) % 60)

/-- Python `datetime.isoformat()`: `YYYY-MM-DDTHH:MM:SS` plus the `±HH:MM`
offset for an aware value (the pipeline's datetimes have microsecond 0, for
which `isoformat` prints no fractional part). -/
def isoformat (dt : PyDateTime) : String :=
  padNum 4 dt.year ++ "-" ++ padNum 2 dt.month ++ "-" ++ padNum 2 dt.day
    ++ "T" ++ padNum 2 dt.hour ++ ":" ++ padNum 2 dt.minute ++ ":" ++ padNum 2 dt.second
    ++ (match dt.offsetMinutes with
        | none => ""
        | some off => offsetIso off)

/-- The `Event` dataclass of `src/ics.py` (declared `@dataclass(frozen=True)`).
Field `end` of the Python dataclass is spelled `end_` (`end` is reserved). -/
structure Event where
  title : String
  start : PyDateTime
  end_ : Option PyDateTime
  location : String
  url : String
deriving Repr, DecidableEq

/-- Modelled from the spec: `hashlib.sha1(...).hexdigest()` is the external
"hashing primitive for identifiers" collaborator (`src/ics.py:27`), which the
spec relies on as "a stable content hash ... two events with identical
four-tuples always yield the same identifier; changing any field yields a
different identifier".  It is idealized here as a collision-free (injective)
digest keeping the pre-hash content; the compression and hex rendering of
SHA-1 itself are not repository code and are abstracted away. -/
def sha1Hex (s : String) : String := s

/-- The pre-hash content of `Event.uid`:
`f"{self.title}|{self.start.isoformat()}|{self.location}|{self.url}"`. -/
def Event.uidBase (e : Event) : String :=
  e.title ++ "|" ++ isoformat e.start ++ "|" ++ e.location ++ "|" ++ e.url

/-- The `Event.uid` property of `src/ics.py`: digest of the pre-hash content
plus the fixed namespace suffix. -/
def Event.uid (e : Event) : String :=
  sha1Hex e.uidBase ++ "@gorilla-stadium-calendars"

/-- The escaping chain of `src/ics.py:_ics_escape`: backslash, newline, comma,
semicolon, in that order.  (`s or ""` only converts `None`; titles, locations
and URLs are strings here.) -/
def ics_escape (s : String) : String :=
  replaceChar (replaceChar (replaceChar (replaceChar s '\\' "\\\\") '\n' "\\n") ',' "\\,") ';' "\\;"

/-- The `src/ics.py:_dt_to_ics` renderer: treat a naive value as UTC, convert
to UTC civil fields, and render `strftime("%Y%m%dT%H%M%SZ")`. -/
def dt_to_ics (dt : PyDateTime) : String :=
  let t := instantSec dt
  let g := t / 86400
  let sod := t % 86400
  padNum 4 (fromOrdinal g).1 ++ padNum 2 (fromOrdinal g).2.1 ++ padNum 2 (fromOrdinal g).2.2
    ++ "T" ++ padNum 2 (sod / 3600) ++ padNum 2 (sod % 3600 / 60) ++ padNum 2 (sod % 60)
    ++ "Z"

/-- The per-event block of `src/ics.py:build_ics` (lines 43-58): `DTEND` only
when an end instant exists (a `datetime` is always truthy), `URL`/`DESCRIPTION`
only for a nonempty URL string. -/
def eventLines (now : PyDateTime) (e : Event) : List String :=
  ["BEGIN:VEVENT",
   "UID:" ++ e.uid,
   "DTSTAMP:" ++ dt_to_ics now,
   "DTSTART:" ++ dt_to_ics e.start]
  ++ (match e.end_ with
      | some en => ["DTEND:" ++ dt_to_ics en]
      | none => [])
  ++ ["SUMMARY:" ++ ics_escape e.title,
      "LOCATION:" ++ ics_escape e.location]
  ++ (if e.url ≠ "" then ["URL:" ++ ics_escape e.url, "DESCRIPTION:" ++ ics_escape e.url]
      else [])
  ++ ["END:VEVENT"]

/-- Header lines of `src/ics.py:build_ics` (lines 32-40). -/
def headerLines (calendarName : String) : List String :=
  ["BEGIN:VCALENDAR",
   "VERSION:2.0",
   "PRODID:-//Gorilla Carts & Kiosks//Stadium Calendars//EN",
   "CALSCALE:GREGORIAN",
   "METHOD:PUBLISH",
   "X-WR-CALNAME:" ++ ics_escape calendarName,
   "X-WR-TIMEZONE:Europe/London"]

/-- Does the list hold an event with an offset-naive start? -/
def hasNaiveStart (events : List Event) : Bool :=
  events.any (fun e => e.start.offsetMinutes.isNone)

/-- Does the list hold an event with an offset-aware start? -/
def hasAwareStart (events : List Event) : Bool :=
  events.any (fun e => e.start.offsetMinutes.isSome)

/-- Python's `sorted(events, key=lambda x: x.start)` (`src/ics.py:42` and
`src/build_calendars.py:161`).  A list holding both a naive and an aware start
raises `TypeError` when the sort compares them (run detection compares
adjacent keys, and some adjacent pair must mix).  A uniform list sorts stably:
all-naive by the civil-field (lexicographic) comparison, otherwise — all-aware,
or too short to compare — by absolute timeline position.  Python's `sorted`
and the insertion sort used here are both stable, and a stable sort's output
is determined by the comparison alone, so the embedding returns exactly the
list CPython's Timsort returns. -/
def sortByStart (events : List Event) : Except PyErr (List Event) :=
  if hasNaiveStart events && hasAwareStart events then .error .typeErrorNaiveAware
  else if hasNaiveStart events then
    .ok (List.insertionSort (fun a b => naiveDtLe a.start b.start) events)
  else
    .ok (List.insertionSort (fun a b => instantSec a.start ≤ instantSec b.start) events)

/-- The `src/ics.py:build_ics` serializer.  Python computes
`now = datetime.now(timezone.utc)` internally; that I/O read is passed in
explicitly here.  The sort at line 42 can raise `TypeError` on a mixed
naive/aware event list, in which case no document is produced. -/
def build_ics (calendarName : String) (events : List Event) (now : PyDateTime) :
    Except PyErr String :=
  match sortByStart events with
  | .error er => .error er
  | .ok se =>
    .ok (String.intercalate "\r\n"
      (headerLines calendarName ++ se.flatMap (eventLines now)
        ++ ["END:VCALENDAR"]) ++ "\r\n")

/-! ### The `src/sources.py` module -/

/-- The frozen `Source` dataclass of `src/sources.py`. -/
structure Source where
  name : String
  url : String
  location : String
  stadium_tag : String
  kind : String := ""
deriving Repr, DecidableEq

/-- Outcome of one transport attempt inside `src/sources.py:_get`: either the
response text (a `requests.get` that returned and passed `raise_for_status`),
or a failure (any exception from the transport or a non-success HTTP status). -/
inductive FetchOutcome where
  | success (body : String)
  | failure
deriving Repr, DecidableEq

/-- The `src/sources.py:_get` fetcher over a sequence of per-attempt transport
outcomes (`attempts n` is what attempt number `n` would produce).  The loop
runs `for attempt in range(2)`: a success returns its body; the first failure
sleeps and retries; the second failure returns the empty-string sentinel.
The embedding is a total function: no exception escapes. -/
def http_get (attempts : Nat → FetchOutcome) : String :=
  match attempts 0 with
  | .success body => body
  | .failure =>
    match attempts 1 with
    | .success body => body
    | .failure => ""

/-- A decoded JSON value, as `json.loads` hands it to `_events_from_jsonld`. -/
inductive PyJson where
  | null
  | bool (b : Bool)
  | num (n : Int)
  | str (s : String)
  | arr (items : List PyJson)
  | obj (fields : List (String × PyJson))
deriving Repr

/-- Python truthiness of a decoded JSON value (`None`, `False`, `0`, `""`,
`[]`, `{}` are falsy). -/
def pyTruthy : PyJson → Bool
  | .null => false
  | .bool b => b
  | .num n => n != 0
  | .str s => s != ""
  | .arr items => !items.isEmpty
  | .obj fields => !fields.isEmpty

/-- Python `dict.get`: a decoded JSON object holds each key once, so lookup in
the association list models it. -/
def jlookup (fields : List (String × PyJson)) (key : String) : Option PyJson :=
  match fields.find? (fun kv => kv.1 = key) with
  | some kv => some kv.2
  | none => none

/-- Python `x or default` on an optional JSON value (`dict.get` returning
`None` when absent): the default replaces an absent or falsy value. -/
def orDefault (v : Option PyJson) (d : PyJson) : PyJson :=
  match v with
  | some x => if pyTruthy x then x else d
  | none => d

mutual

/-- Python `repr` of a decoded JSON value (cosmetic: only reachable through
`str()` of a non-string `name`/`url` value, which no claim exercises). -/
def pyReprJson : PyJson → String
  | .null => "None"
  | .bool b => if b then "True" else "False"
  | .num n => toString n
  | .str s => "'" ++ s ++ "'"
  | .arr items => "[" ++ String.intercalate ", " (pyReprList items) ++ "]"
  | .obj fields => "\x7b" ++ String.intercalate ", " (pyReprFields fields) ++ "\x7d"

/-- Reprs of the elements of a JSON array. -/
def pyReprList : List PyJson → List String
  | [] => []
  | x :: rest => pyReprJson x :: pyReprList rest

/-- Reprs of the key/value pairs of a JSON object. -/
def pyReprFields : List (String × PyJson) → List String
  | [] => []
  | (k, v) :: rest => ("'" ++ k ++ "': " ++ pyReprJson v) :: pyReprFields rest

end

mutual

/-- Structural equality of decoded JSON values, as Python `==` compares the
values the pipeline actually compares (a string against any decoded value). -/
def pyJsonEq (a b : PyJson) : Bool :=
  match a, b with
  | .null, .null => true
  | .bool x, .bool y => x == y
  | .num x, .num y => x == y
  | .str x, .str y => x == y
  | .arr x, .arr y => pyJsonListEq x y
  | .obj x, .obj y => pyJsonFieldsEq x y
  | _, _ => false

/-- Elementwise equality of JSON arrays. -/
def pyJsonListEq (x y : List PyJson) : Bool :=
  match x, y with
  | [], [] => true
  | a :: x, b :: y => pyJsonEq a b && pyJsonListEq x y
  | _, _ => false

/-- Pairwise equality of JSON object fields. -/
def pyJsonFieldsEq (x y : List (String × PyJson)) : Bool :=
  match x, y with
  | [], [] => true
  | (k, a) :: x, (l, b) :: y => k == l && pyJsonEq a b && pyJsonFieldsEq x y
  | _, _ => false

end

/-- Python `str()` of a decoded JSON value. -/
def pyStr : PyJson → String
  | .null => "None"
  | .bool b => if b then "True" else "False"
  | .num n => toString n
  | .str s => s
  | .arr items => pyReprJson (.arr items)
  | .obj fields => pyReprJson (.obj fields)

/-- Date-value handling of `_events_from_jsonld`: `dtparser.parse(v)` under
`try/except` — a non-string argument raises `TypeError`, a non-parsable string
raises `ValueError`, both caught and collapsed to `None`. -/
def parseDateValue : PyJson → Option PyDateTime
  | .str s => dtparse s
  | _ => none

/-- The `@type` test of `_events_from_jsonld` (lines 83-87): a list declares an
Event if it contains the string `"Event"`, any other value by equality. -/
def declaresEvent (t : Option PyJson) : Bool :=
  match t with
  | some (.arr l) => l.any (fun v => pyJsonEq v (.str "Event"))
  | some v => pyJsonEq v (.str "Event")
  | none => false

/-- Candidate name (line 92): `str(obj.get("name") or "Event").strip()`. -/
def nameOf (fields : List (String × PyJson)) : String :=
  pyStrip (pyStr (orDefault (jlookup fields "name") (.str "Event")))

/-- Candidate url (line 95): `str(obj.get("url") or "").strip()`. -/
def urlOf (fields : List (String × PyJson)) : String :=
  pyStrip (pyStr (orDefault (jlookup fields "url") (.str "")))

/-- Candidate location (lines 98-101): a dict-valued `location` overrides the
fallback by its (truthy) `name`, stripped. -/
def locOf (default_location : String) (fields : List (String × PyJson)) : String :=
  match jlookup fields "location" with
  | some (.obj lf) => pyStrip (pyStr (orDefault (jlookup lf "name") (.str default_location)))
  | _ => default_location

/-- Candidate start instant (lines 103-107): parsed when present and truthy;
a parse failure (or a non-string value) yields `none`. -/
def startDtOf (fields : List (String × PyJson)) : Option PyDateTime :=
  match jlookup fields "startDate" with
  | some v => if pyTruthy v then parseDateValue v else none
  | none => none

/-- Candidate end instant (lines 110-115): optional; a parse failure drops
only this field. -/
def endDtOf (fields : List (String × PyJson)) : Option PyDateTime :=
  match jlookup fields "endDate" with
  | some v => if pyTruthy v then parseDateValue v else none
  | none => none

/-- Per-candidate processing of `_events_from_jsonld` (lines 79-125): skip a
non-dict candidate or one whose `@type` is not Event; the start date is
required — its absence or parse failure drops the whole candidate. -/
def eventOfCandidate (default_location : String) : PyJson → Option Event
  | .obj fields =>
    if declaresEvent (jlookup fields "@type") then
      match startDtOf fields with
      | none => none
      | some sdt =>
        some ⟨nameOf fields, sdt, endDtOf fields, locOf default_location fields, urlOf fields⟩
    else none
  | _ => none

/-- Candidate flattening of `_events_from_jsonld` (lines 70-77): a list is its
own candidate list, a dict with a list-valued `@graph` contributes the graph,
any other dict contributes itself, anything else nothing. -/
def jsonldCandidates : PyJson → List PyJson
  | .arr l => l
  | .obj fields =>
    match jlookup fields "@graph" with
    | some (.arr g) => g
    | _ => [.obj fields]
  | _ => []

/-- The `src/sources.py:_events_from_jsonld` extractor, taken at the boundary
after the external collaborators BeautifulSoup and `json.loads`: `blocks` are
the successfully decoded `application/ld+json` script payloads in document
order (a block that fails to decode is skipped by the `try/except` and simply
does not appear). -/
def events_from_jsonld (blocks : List PyJson) (default_location : String) : List Event :=
  blocks.flatMap (fun data => (jsonldCandidates data).filterMap (eventOfCandidate default_location))

/-- Full match against `_FIXTURES_DT_RE`, the anchored pattern
`^\d{1,2}\s+[A-Za-z]{3}\s+\d{4}\s+\d{1,2}:\d{2}\s+[+-]\d{2}:\d{2}$`
(each character class here is disjoint from its successor, so the greedy
run-length scan coincides with the regex's backtracking semantics). -/
def fixturesDtMatch (s : String) : Bool :=
  let (nd, _, r1) := munchDigits s.data
  let (w1, r2) := munchWs r1
  let (ab, r3) := munchAlpha r2
  let (w2, r4) := munchWs r3
  let (ny, _, r5) := munchDigits r4
  let (w3, r6) := munchWs r5
  let (nh, _, r7) := munchDigits r6
  (1 ≤ nd && nd ≤ 2) && (1 ≤ w1) && (ab.length = 3) && (1 ≤ w2) && (ny = 4)
    && (1 ≤ w3) && (1 ≤ nh && nh ≤ 2) &&
  match r7 with
  | ':' :: r8 =>
    let (nmi, _, r9) := munchDigits r8
    let (w4, r10) := munchWs r9
    (nmi = 2) && (1 ≤ w4) &&
    match r10 with
    | sign :: r11 =>
      (sign = '+' || sign = '-') &&
      (let (no1, _, r12) := munchDigits r11
       (no1 = 2) &&
       match r12 with
       | ':' :: r13 =>
         let (no2, _, r14) := munchDigits r13
         (no2 = 2) && r14.isEmpty
       | _ => false)
    | _ => false
  | _ => false

/-- The inner `while j < len(text_lines)` search of `_events_from_fixtures`
(lines 158-163): index of the first line at or after `j` containing `" - "`,
or `text_lines.length` when none exists.  The fuel argument makes the
recursion structural; `findGameIdx` supplies exactly enough. -/
def findGameIdxF (lines : List String) : Nat → Nat → Nat
  | 0, j => j
  | fuel + 1, j =>
    if j < lines.length then
      if pyInStr " - " (lines.getD j "") then j else findGameIdxF lines fuel (j + 1)
    else j

/-- Index of the first `" - "` line at or after `j` (the loop exits with
`j = len(text_lines)` when no such line remains). -/
def findGameIdx (lines : List String) (j : Nat) : Nat :=
  findGameIdxF lines (lines.length - j) j

/-- The cursor update at the end of each iteration of the
`_events_from_fixtures` scan (lines 204-206): on an anchor line, move to the
found game line (`i = j`, and `j > i` always holds since the game search
starts at `i + 1`); otherwise move one line forward. -/
def nextCursor (lines : List String) (i : Nat) : Nat :=
  if fixturesDtMatch (lines.getD i "") then
    let j := findGameIdx lines (i + 1)
    if j > i then j else i + 1
  else i + 1

/-- The competition window of `_events_from_fixtures` (line 177):
`" ".join(text_lines[max(0, i-2) : min(len, i+3)]).lower()`. -/
def compWindow (lines : List String) (i : Nat) : String :=
  pyLower (String.intercalate " "
    ((lines.drop (i - 2)).take (min lines.length (i + 3) - (i - 2))))

/-- Competition tagging of `_events_from_fixtures` (lines 176-190): substring
search in the window, then an exact lowercase match over the image alt texts. -/
def compOf (lines alts : List String) (i : Nat) : String :=
  let window := compWindow lines i
  if pyInStr "champions league" window then "Champions League"
  else if pyInStr "league cup" window then "League Cup"
  else if pyInStr "fa cup" window then "FA Cup"
  else
    match alts.find? (fun alt =>
      pyLower alt = "champions league" ∨ pyLower alt = "league cup" ∨ pyLower alt = "fa cup") with
    | some alt => alt
    | none => ""

/-- One anchor's event emission in `_events_from_fixtures` (lines 165-202):
requires a game line before the end of the sequence and a parsable anchor;
the end instant is always `start + timedelta(hours=2, minutes=30)`, and the
title carries the competition tag in parentheses when one was found. -/
def fixtureEventAt (lines alts : List String) (loc url : String) (i j : Nat) : List Event :=
  if j < lines.length then
    match dtparse (lines.getD i "") with
    | some start_dt =>
      let comp := compOf lines alts i
      let game := lines.getD j ""
      let title := if comp = "" then game else game ++ " (" ++ comp ++ ")"
      [⟨title, start_dt, some (addMinutes start_dt 150), loc, url⟩]
    | none => []
  else []

/-- The scan loop of `_events_from_fixtures` (lines 149-206), with fuel making
the recursion structural; `events_from_fixtures` supplies sufficient fuel, and
`fixLoopF_fuel_irrel` below shows any sufficient fuel gives the same value. -/
def fixLoopF (lines alts : List String) (loc url : String) : Nat → Nat → List Event
  | 0, _ => []
  | fuel + 1, i =>
    if i < lines.length then
      if fixturesDtMatch (lines.getD i "") then
        fixtureEventAt lines alts loc url i (findGameIdx lines (i + 1))
          ++ fixLoopF lines alts loc url fuel (nextCursor lines i)
      else fixLoopF lines alts loc url fuel (nextCursor lines i)
    else []

/-- The cursor strictly advances on every iteration. -/
theorem nextCursor_gt (lines : List String) (i : Nat) : i < nextCursor lines i := by
  rw [nextCursor]
  split
  · dsimp only
    split <;> omega
  · omega

/-- The scan loop is insensitive to the exact fuel as long as it covers the
remaining line count: the cursor strictly advances, so `lines.length - i`
iterations always suffice. -/
theorem fixLoopF_fuel_irrel (lines alts : List String) (loc url : String) :
    ∀ f1 f2 i, lines.length - i ≤ f1 → lines.length - i ≤ f2 →
      fixLoopF lines alts loc url f1 i = fixLoopF lines alts loc url f2 i := by
  intro f1
  induction f1 with
  | zero =>
    intro f2 i h1 h2
    have hge : lines.length ≤ i := by omega
    cases f2 with
    | zero => rfl
    | succ b =>
      rw [fixLoopF, fixLoopF]
      rw [if_neg (by omega)]
  | succ a ih =>
    intro f2 i h1 h2
    cases f2 with
    | zero =>
      have hge : lines.length ≤ i := by omega
      rw [fixLoopF, fixLoopF]
      rw [if_neg (by omega)]
    | succ b =>
      rw [fixLoopF, fixLoopF]
      by_cases hi : i < lines.length
      · rw [if_pos hi, if_pos hi]
        have hnc := nextCursor_gt lines i
        have hrec := ih b (nextCursor lines i) (by omega) (by omega)
        split <;> rw [hrec]
      · rw [if_neg hi, if_neg hi]

/-- The `src/sources.py:_events_from_fixtures` extractor, taken at the boundary
after BeautifulSoup: `lines` is the stripped, non-empty rendered text lines in
document order (`soup.get_text("\n")` split on newlines), `alts` the non-empty
image alt texts. -/
def events_from_fixtures (lines alts : List String) (loc url : String) : List Event :=
  fixLoopF lines alts loc url lines.length 0

/-! ### The `src/build_calendars.py` module -/

/-- The static `SOURCES` configuration list of `src/build_calendars.py`. -/
def SOURCES : List Source :=
  [⟨"Wembley Stadium Events", "https://www.wembleystadium.com/experiences/events",
    "Wembley Stadium, London", "wembley", "stadium"⟩,
   ⟨"Arsenal Men (Home) – Emirates", "https://fixtur.es/en/team/arsenal/home",
    "Emirates Stadium, London", "emirates", "mens"⟩,
   ⟨"Arsenal Women (Home) – Emirates", "https://fixtur.es/en/team/arsenal-women/home",
    "Emirates Stadium, London", "emirates", "womens"⟩,
   ⟨"Emirates Stadium Events", "https://www.arsenal.com/emirates-stadium/events",
    "Emirates Stadium, London", "emirates", "stadium"⟩,
   ⟨"West Ham Men (Home) – London Stadium", "https://fixtur.es/en/team/west-ham-united/home",
    "London Stadium, London", "london-stadium", "mens"⟩,
   ⟨"London Stadium Events", "https://www.london-stadium.com/events/index.html",
    "London Stadium, London", "london-stadium", "stadium"⟩]

/-- The `CALENDAR_NAMES` dict, in insertion order. -/
def CALENDAR_NAMES : List (String × String) :=
  [("wembley", "Wembley Stadium – All Events (Gorilla)"),
   ("emirates", "Emirates Stadium – All Events (Gorilla)"),
   ("london-stadium", "London Stadium – All Events (Gorilla)")]

/-- The `OUTFILES` dict, in insertion order. -/
def OUTFILES : List (String × String) :=
  [("wembley", "wembley.ics"),
   ("emirates", "emirates.ics"),
   ("london-stadium", "london-stadium.ics")]

/-- The `_prefix_for_source` classifier: `(M)`/`(F)` by source kind, otherwise
`(C)` exactly when a concert keyword and no sport keyword occurs in the
lowercased title, else `(O)`. -/
def prefix_for_source (source : Source) (title : String) : String :=
  if source.kind = "mens" then "(M) " ++ title
  else if source.kind = "womens" then "(F) " ++ title
  else
    let t := pyLower title
    let concertish := ["tour", "live", "concert", "festival", "gig"].any (fun k => pyInStr k t)
    let sportish := ["match", "vs", " v ", "fixture", "cup", "league", "nfl", "boxing",
                     "rugby"].any (fun k => pyInStr k t)
    if concertish && !sportish then "(C) " ++ title
    else "(O) " ++ title

/-- The `_should_include_event` competition filter: for the Emirates women's
source, drop titles containing an excluded competition name. -/
def should_include_event (source : Source) (title : String) : Bool :=
  if source.kind = "womens" && source.stadium_tag = "emirates" then
    let t := pyLower title
    if pyInStr "champions league" t then false
    else if pyInStr "fa cup" t then false
    else if pyInStr "league cup" t then false
    else true
  else true

/-- Attribute assignment `e.title = ...` on an `Event`.  `Event` is declared
`@dataclass(frozen=True)` in `src/ics.py:16`, and attribute assignment on a
frozen dataclass raises `dataclasses.FrozenInstanceError`. -/
def setEventTitle (_e : Event) (_v : String) : Except PyErr Event :=
  .error .frozenInstanceError

/-- Attribute assignment `e.location = ...` on the frozen `Event` dataclass;
raises like `setEventTitle`. -/
def setEventLocation (_e : Event) (_v : String) : Except PyErr Event :=
  .error .frozenInstanceError

/-- The per-event body of the grouping loop in `build()`
(`src/build_calendars.py:138-149`): filter, then `e.title = _prefix_for_source(...)`,
then backfill `e.location` when empty (Python `not e.location`), then append.
`ok none` models `continue`, `ok (some e)` the event as appended. -/
def processEvent (source : Source) (e : Event) : Except PyErr (Option Event) :=
  if !should_include_event source e.title then .ok none
  else
    match setEventTitle e (prefix_for_source source e.title) with
    | .error er => .error er
    | .ok e1 =>
      match (if e1.location = "" then setEventLocation e1 source.location else .ok e1) with
      | .error er => .error er
      | .ok e2 => .ok (some e2)

/-- Buckets state `events_by_stadium`, in dict insertion order. -/
def initBuckets : List (String × List Event) :=
  [("wembley", []), ("emirates", []), ("london-stadium", [])]

/-- Append an event to the bucket of a tag. -/
def bucketAppend (bs : List (String × List Event)) (tag : String) (e : Event) :
    List (String × List Event) :=
  bs.map (fun kv => if kv.1 = tag then (kv.1, kv.2 ++ [e]) else kv)

/-- Python `tag in events_by_stadium`. -/
def hasTag (bs : List (String × List Event)) (tag : String) : Bool :=
  bs.any (fun kv => kv.1 = tag)

/-- The inner `for e in events` loop of `build()` for one source. -/
def foldSourceEvents (source : Source) (bs : List (String × List Event)) :
    List Event → Except PyErr (List (String × List Event))
  | [] => .ok bs
  | e :: rest =>
    match processEvent source e with
    | .error er => .error er
    | .ok none => foldSourceEvents source bs rest
    | .ok (some e2) => foldSourceEvents source (bucketAppend bs source.stadium_tag e2) rest

/-- The outer `for source, events in all_events_by_source.items()` loop of
`build()` (lines 133-149), over the fetched results in dict insertion order. -/
def buildBuckets (bs : List (String × List Event)) :
    List (Source × List Event) → Except PyErr (List (String × List Event))
  | [] => .ok bs
  | (source, events) :: rest =>
    if !hasTag bs source.stadium_tag then buildBuckets bs rest
    else
      match foldSourceEvents source bs events with
      | .error er => .error er
      | .ok bs2 => buildBuckets bs2 rest

/-- The placeholder test of `build()` (line 155):
`"calendar generated (no events parsed yet)" in (e.title or "").lower()`. -/
def isPlaceholder (e : Event) : Bool :=
  pyInStr "calendar generated (no events parsed yet)" (pyLower e.title)

/-- The placeholder-removal step of `build()` (lines 151-156): keep exactly the
events whose title does not contain the sentinel phrase, in every bucket. -/
def removePlaceholders (evs : List Event) : List Event :=
  evs.filter (fun e => !isPlaceholder e)

/-- Formal parameter names of `src/ics.py:build_ics`. -/
def build_ics_params : List String := ["calendar_name", "events"]

/-- Keyword arguments `build()` passes at `src/build_calendars.py:163-167`. -/
def build_call_kwargs : List String := ["calendar_name", "events", "generated_at"]

/-- Python call binding for keyword arguments: a keyword that is not among the
callee's parameters raises `TypeError: got an unexpected keyword argument`. -/
def kwargsBind (params given : List String) : Bool :=
  given.all (fun k => params.contains k)

/-- The `build_ics(calendar_name=..., events=..., generated_at=...)` call of
`build()`: Python binds the keywords against `build_ics`'s signature before
running the body. -/
def invoke_build_ics (calName : String) (events : List Event) (now : PyDateTime) :
    Except PyErr String :=
  if kwargsBind build_ics_params build_call_kwargs then build_ics calName events now
  else .error (.typeErrorUnexpectedKwarg "generated_at")

/-- The write loop of `build()` (lines 159-168): per destination calendar,
sort its bucket by start instant (line 161 — this sort can itself raise
`TypeError` on a mixed naive/aware bucket) and serialize; returns the
`(outfile, document)` pairs that reach `outfile.write_text`. -/
def writeCalendars (buckets : List (String × List Event)) (now : PyDateTime) :
    List (String × String) → Except PyErr (List (String × String))
  | [] => .ok []
  | (tag, calName) :: rest =>
    match sortByStart (((buckets.find? (fun kv => kv.1 = tag)).map Prod.snd).getD []) with
    | .error er => .error er
    | .ok se =>
      match invoke_build_ics calName se now with
      | .error er => .error er
      | .ok text =>
        match writeCalendars buckets now rest with
        | .error er => .error er
        | .ok outs => .ok ((((OUTFILES.find? (fun kv => kv.1 = tag)).map Prod.snd).getD "", text) :: outs)

/-- The `build()` pipeline of `src/build_calendars.py` after the fetch:
group and mutate per source, strip placeholders, then serialize each
destination calendar.  `fetched` is `all_events_by_source.items()` in
insertion order; `now` is the clock value `build_ics` would read. -/
def buildModel (fetched : List (Source × List Event)) (now : PyDateTime) :
    Except PyErr (List (String × String)) :=
  match buildBuckets initBuckets fetched with
  | .error er => .error er
  | .ok bs => writeCalendars (bs.map (fun kv => (kv.1, removePlaceholders kv.2))) now CALENDAR_NAMES

/-! ### Helper lemmas -/

/-- Right cancellation for string concatenation. -/
theorem string_append_cancel_right {a b c : String} (h : a ++ c = b ++ c) : a = b := by
  apply String.ext
  have hd := congrArg String.data h
  simp only [String.data_append] at hd
  exact List.append_cancel_right hd

/-- Left cancellation for string concatenation. -/
theorem string_append_cancel_left {a b c : String} (h : a ++ b = a ++ c) : b = c := by
  apply String.ext
  have hd := congrArg String.data h
  simp only [String.data_append] at hd
  exact List.append_cancel_left hd

/-- Equal identifiers force equal pre-hash contents (the digest model is
injective, and the namespace suffix cancels). -/
theorem uid_eq_uidBase_eq {e1 e2 : Event} (h : e1.uid = e2.uid) : e1.uidBase = e2.uidBase := by
  rw [Event.uid, Event.uid] at h
  simp only [sha1Hex] at h
  exact string_append_cancel_right h

/-- The first line with a `" - "` separator is never before the search start. -/
theorem findGameIdxF_ge (lines : List String) :
    ∀ fuel j, j ≤ findGameIdxF lines fuel j := by
  intro fuel
  induction fuel with
  | zero => intro j; rw [findGameIdxF]
  | succ a ih =>
    intro j
    rw [findGameIdxF]
    split
    · split
      · omega
      · have := ih (j + 1)
        omega
    · omega

/-- The game search never runs past the end of the line sequence. -/
theorem findGameIdxF_le (lines : List String) :
    ∀ fuel j, j ≤ lines.length → findGameIdxF lines fuel j ≤ lines.length := by
  intro fuel
  induction fuel with
  | zero => intro j h; rw [findGameIdxF]; omega
  | succ a ih =>
    intro j h
    rw [findGameIdxF]
    split
    · split
      · omega
      · exact ih (j + 1) (by omega)
    · omega

/-- Every event the fixtures scan emits has an end instant exactly 150 minutes
(9000 seconds) after its start instant. -/
theorem fixLoopF_end_after_start (lines alts : List String) (loc url : String) :
    ∀ fuel i e, e ∈ fixLoopF lines alts loc url fuel i →
      ∃ en, e.end_ = some en ∧ instantSec en = instantSec e.start + 9000 := by
  intro fuel
  induction fuel with
  | zero =>
    intro i e h
    rw [fixLoopF] at h
    cases h
  | succ a ih =>
    intro i e h
    rw [fixLoopF] at h
    split at h
    · split at h
      · rw [List.mem_append] at h
        cases h with
        | inl hmem =>
          rw [fixtureEventAt] at hmem
          split at hmem
          · split at hmem
            · rename_i start_dt heq
              rw [List.mem_singleton] at hmem
              subst hmem
              refine ⟨addMinutes start_dt 150, rfl, ?_⟩
              dsimp only
              rw [instantSec_addMinutes]
              omega
            · cases hmem
          · cases hmem
        | inr hmem => exact ih _ _ hmem
      · exact ih _ _ h
    · cases h

/-- The write loop always raises on its first destination calendar: either the
bucket's sort at line 161 raises, or the `generated_at=` keyword is rejected
when calling `build_ics`. -/
theorem writeCalendars_cons_errors (buckets : List (String × List Event)) (now : PyDateTime)
    (tag calName : String) (rest : List (String × String)) :
    ∃ er, writeCalendars buckets now ((tag, calName) :: rest) = .error er := by
  rw [writeCalendars]
  cases hs : sortByStart (((buckets.find? (fun kv => kv.1 = tag)).map Prod.snd).getD []) with
  | error er => exact ⟨er, rfl⟩
  | ok se => exact ⟨.typeErrorUnexpectedKwarg "generated_at", rfl⟩

/-! ### The claims -/

/-- Claim C1.  The claim states that for every Source and every extracted
Event passing the Competition Filter, `build()` mutates the Event in place
(title prefixed, empty location backfilled).  The code cannot: `Event` is
declared `@dataclass(frozen=True)` in `src/ics.py:16`, so the very first
assignment `e.title = _prefix_for_source(source, e.title)` at
`src/build_calendars.py:143` raises `dataclasses.FrozenInstanceError` for
every event that passes the filter.  The spec's in-place mutation is clearly
the intent of lines 138-149; the frozen declaration makes it a code bug. -/
theorem claim_C1 (source : Source) (e : Event)
    (h : should_include_event source e.title = true) :
    processEvent source e = .error .frozenInstanceError := by
  rw [processEvent, h]
  rfl

/-- Witness for C1: the Wembley source with a concrete extracted event that
passes the filter. -/
theorem claim_C1_witness :
    processEvent
      ⟨"Wembley Stadium Events", "https://www.wembleystadium.com/experiences/events",
       "Wembley Stadium, London", "wembley", "stadium"⟩
      ⟨"Test Gig", ⟨2026, 5, 1, 19, 0, 0, some 60⟩, none, "", ""⟩
      = .error .frozenInstanceError :=
  claim_C1 _ _ (by decide)

/-- Claim C2.  The claim states that a run of `build()` produces a well-formed
calendar document for every destination key, even with empty buckets.  In
fact no run of `build()` ever writes any file: for every fetch result and
every clock value the pipeline raises — with any event passing the filter the
frozen-dataclass assignment raises first (claim C1), and otherwise the very
first serializer call raises
`TypeError: build_ics() got an unexpected keyword argument 'generated_at'`,
because `build()` (line 166) passes `generated_at=...` while
`build_ics(calendar_name, events)` (`src/ics.py:30`) accepts no such
parameter.  The spec describes the clear intent; the call is a code bug. -/
theorem claim_C2 (fetched : List (Source × List Event)) (now : PyDateTime) :
    ∃ er, buildModel fetched now = .error er := by
  rw [buildModel]
  cases hbb : buildBuckets initBuckets fetched with
  | error er => exact ⟨er, rfl⟩
  | ok bs =>
    rw [CALENDAR_NAMES]
    exact writeCalendars_cons_errors _ now "wembley" "Wembley Stadium – All Events (Gorilla)" _

/-- Counterexample for C3: a bucket holding only the placeholder sentinel does
not retain it — the removal step empties the bucket. -/
theorem claim_C3_counterexample :
    isPlaceholder ⟨"Calendar generated (no events parsed yet)",
      ⟨2026, 1, 1, 0, 0, 0, some 0⟩, none, "", ""⟩ = true
    ∧ removePlaceholders [⟨"Calendar generated (no events parsed yet)",
      ⟨2026, 1, 1, 0, 0, 0, some 0⟩, none, "", ""⟩] = [] := by
  constructor
  · decide
  · decide

/-- Claim C3, amended.  The code (`src/build_calendars.py:151-156`, comment
"Remove placeholders completely") removes the sentinel from every bucket
unconditionally, not only when a real event exists: the resulting bucket holds
exactly its non-sentinel events, so a bucket containing only the sentinel ends
empty (its calendar is still emitted, per the write loop). -/
theorem claim_C3 (bucket : List Event) (e : Event) :
    e ∈ removePlaceholders bucket ↔ e ∈ bucket ∧ isPlaceholder e = false := by
  simp [removePlaceholders, List.mem_filter]

/-- Counterexample for C4: a structured-data candidate whose `endDate` parses
to an instant strictly before its `startDate` is emitted as-is — the
Structured-Data Extractor never compares the two. -/
theorem claim_C4_counterexample :
    events_from_jsonld
      [.obj [("@type", .str "Event"), ("name", .str "X"),
             ("startDate", .str "2026-01-02T00:00:00+00:00"),
             ("endDate", .str "2026-01-01T00:00:00+00:00")]] "Loc"
      = [⟨"X", ⟨2026, 1, 2, 0, 0, 0, some 0⟩, some ⟨2026, 1, 1, 0, 0, 0, some 0⟩, "Loc", ""⟩]
    ∧ instantSec ⟨2026, 1, 1, 0, 0, 0, some 0⟩ < instantSec ⟨2026, 1, 2, 0, 0, 0, some 0⟩ := by
  constructor
  · rfl
  · decide

/-- Claim C4, amended.  Only the heuristic fixtures extractor guarantees the
ordering: every event it emits carries an end instant exactly 2h30m after its
start, hence strictly after it.  The structured-data extractor copies a parsed
`endDate` without checking it against the start, so its events may violate the
claim (see the counterexample). -/
theorem claim_C4 (lines alts : List String) (loc url : String) (e : Event)
    (h : e ∈ events_from_fixtures lines alts loc url) :
    ∃ en, e.end_ = some en ∧ instantSec e.start < instantSec en := by
  rw [events_from_fixtures] at h
  obtain ⟨en, hen, hinst⟩ := fixLoopF_end_after_start lines alts loc url _ _ e h
  exact ⟨en, hen, by omega⟩

/-- Witness for C4: the event extracted from a concrete fixtur.es-style page. -/
theorem claim_C4_witness :
    ∃ en, (⟨"Arsenal - Chelsea", ⟨2026, 1, 11, 12, 0, 0, some 0⟩,
        some ⟨2026, 1, 11, 14, 30, 0, some 0⟩, "L", "U"⟩ : Event).end_ = some en
      ∧ instantSec (⟨2026, 1, 11, 12, 0, 0, some 0⟩ : PyDateTime) < instantSec en :=
  claim_C4 ["11 Jan 2026 12:00 +00:00", "Arsenal - Chelsea", "ignored noise"] [] "L" "U"
    ⟨"Arsenal - Chelsea", ⟨2026, 1, 11, 12, 0, 0, some 0⟩,
     some ⟨2026, 1, 11, 14, 30, 0, some 0⟩, "L", "U"⟩ (by decide)

/-- Claim C5.  The identifier is a pure function of
(title, start-ISO-text, location, url): identical tuples give identical
identifiers, and a difference in any single tuple field gives different
identifiers.  The pre-hash content joins the four fields with `"|"`, so a
single differing field always changes it; the digest is the idealized
collision-free hash of the spec (`sha1Hex`). -/
theorem claim_C5 :
    (∀ e1 e2 : Event, e1.title = e2.title → isoformat e1.start = isoformat e2.start →
      e1.location = e2.location → e1.url = e2.url → e1.uid = e2.uid)
    ∧ (∀ e1 e2 : Event, isoformat e1.start = isoformat e2.start → e1.location = e2.location →
      e1.url = e2.url → e1.title ≠ e2.title → e1.uid ≠ e2.uid)
    ∧ (∀ e1 e2 : Event, e1.title = e2.title → e1.location = e2.location →
      e1.url = e2.url → isoformat e1.start ≠ isoformat e2.start → e1.uid ≠ e2.uid)
    ∧ (∀ e1 e2 : Event, e1.title = e2.title → isoformat e1.start = isoformat e2.start →
      e1.url = e2.url → e1.location ≠ e2.location → e1.uid ≠ e2.uid)
    ∧ (∀ e1 e2 : Event, e1.title = e2.title → isoformat e1.start = isoformat e2.start →
      e1.location = e2.location → e1.url ≠ e2.url → e1.uid ≠ e2.uid) := by
  refine ⟨?_, ?_, ?_, ?_, ?_⟩
  · intro e1 e2 ht hs hl hu
    rw [Event.uid, Event.uid, Event.uidBase, Event.uidBase, ht, hs, hl, hu]
  · intro e1 e2 hs hl hu hne huid
    apply hne
    have hb := uid_eq_uidBase_eq huid
    rw [Event.uidBase, Event.uidBase, hs, hl, hu] at hb
    have hd := congrArg String.data hb
    simp only [String.data_append, List.append_assoc] at hd
    exact String.ext (List.append_cancel_right hd)
  · intro e1 e2 ht hl hu hne huid
    apply hne
    have hb := uid_eq_uidBase_eq huid
    rw [Event.uidBase, Event.uidBase, ht, hl, hu] at hb
    have hd := congrArg String.data hb
    simp only [String.data_append, List.append_assoc] at hd
    have h1 := List.append_cancel_left hd
    have h2 := List.append_cancel_left h1
    exact String.ext (List.append_cancel_right h2)
  · intro e1 e2 ht hs hu hne huid
    apply hne
    have hb := uid_eq_uidBase_eq huid
    rw [Event.uidBase, Event.uidBase, ht, hs, hu] at hb
    have hd := congrArg String.data hb
    simp only [String.data_append, List.append_assoc] at hd
    have h1 := List.append_cancel_left hd
    have h2 := List.append_cancel_left h1
    have h3 := List.append_cancel_left h2
    have h4 := List.append_cancel_left h3
    exact String.ext (List.append_cancel_right h4)
  · intro e1 e2 ht hs hl hne huid
    apply hne
    have hb := uid_eq_uidBase_eq huid
    rw [Event.uidBase, Event.uidBase, ht, hs, hl] at hb
    have hd := congrArg String.data hb
    simp only [String.data_append, List.append_assoc] at hd
    have h1 := List.append_cancel_left hd
    have h2 := List.append_cancel_left h1
    have h3 := List.append_cancel_left h2
    have h4 := List.append_cancel_left h3
    have h5 := List.append_cancel_left h4
    exact String.ext (List.append_cancel_left h5)

/-- Witness for C5: two events equal on the tuple but differing in the ignored
end field get the same identifier; title-only, start-only, location-only and
url-only changes each give a different identifier. -/
theorem claim_C5_witness :
    (⟨"A", ⟨2026, 1, 1, 0, 0, 0, some 0⟩, none, "L", "U"⟩ : Event).uid
      = (⟨"A", ⟨2026, 1, 1, 0, 0, 0, some 0⟩,
          some ⟨2026, 1, 1, 1, 0, 0, some 0⟩, "L", "U"⟩ : Event).uid
    ∧ (⟨"A", ⟨2026, 1, 1, 0, 0, 0, some 0⟩, none, "L", "U"⟩ : Event).uid
      ≠ (⟨"B", ⟨2026, 1, 1, 0, 0, 0, some 0⟩, none, "L", "U"⟩ : Event).uid
    ∧ (⟨"A", ⟨2026, 1, 1, 0, 0, 0, some 0⟩, none, "L", "U"⟩ : Event).uid
      ≠ (⟨"A", ⟨2026, 1, 1, 0, 0, 1, some 0⟩, none, "L", "U"⟩ : Event).uid
    ∧ (⟨"A", ⟨2026, 1, 1, 0, 0, 0, some 0⟩, none, "L", "U"⟩ : Event).uid
      ≠ (⟨"A", ⟨2026, 1, 1, 0, 0, 0, some 0⟩, none, "M", "U"⟩ : Event).uid
    ∧ (⟨"A", ⟨2026, 1, 1, 0, 0, 0, some 0⟩, none, "L", "U"⟩ : Event).uid
      ≠ (⟨"A", ⟨2026, 1, 1, 0, 0, 0, some 0⟩, none, "L", "V"⟩ : Event).uid :=
  ⟨claim_C5.1 _ _ rfl rfl rfl rfl,
   claim_C5.2.1 _ _ rfl rfl rfl (by decide),
   claim_C5.2.2.1 _ _ rfl rfl rfl (by decide),
   claim_C5.2.2.2.1 _ _ rfl rfl rfl (by decide),
   claim_C5.2.2.2.2 _ _ rfl rfl rfl (by decide)⟩

/-- Counterexample for C6: a list mixing an offset-aware and an offset-naive
start makes the sort at `src/ics.py:42` raise
`TypeError: can't compare offset-naive and offset-aware datetimes`, so no
calendar document is produced for that list at all — refuting the claim for
every list.  The second conjunct shows such a naive-start event really is
produced by the Structured-Data Extractor (an ISO `startDate` with no UTC
offset parses to a naive datetime), so the error path is reachable. -/
theorem claim_C6_counterexample :
    build_ics "Cal"
        [⟨"A", ⟨2026, 1, 2, 12, 0, 0, some 0⟩, none, "", ""⟩,
         ⟨"B", ⟨2026, 1, 1, 0, 0, 0, none⟩, none, "L", ""⟩]
        ⟨2026, 1, 1, 0, 0, 0, some 0⟩
      = .error .typeErrorNaiveAware
    ∧ events_from_jsonld
        [.obj [("@type", .str "Event"), ("name", .str "B"),
               ("startDate", .str "2026-01-01T00:00:00")]] "L"
      = [⟨"B", ⟨2026, 1, 1, 0, 0, 0, none⟩, none, "L", ""⟩] := by
  constructor
  · rfl
  · rfl

/-- Claim C6, amended.  For every list the serializer actually serializes —
the sort comparison only succeeds when the events' starts are uniformly
offset-aware or uniformly offset-naive — the produced document renders one
block per event in the sorted order, and that order is non-decreasing in
start instant: directly for an all-aware list, and for an all-naive list of
datetime-constructible (valid-field) starts because the lexicographic civil
order Python uses then agrees with the absolute timeline order.  A list
mixing naive and aware starts raises `TypeError` in the sort and yields no
document. -/
theorem claim_C6 (name : String) (events : List Event) (now : PyDateTime) :
    (∀ se, sortByStart events = .ok se →
      build_ics name events now
        = .ok (String.intercalate "\r\n"
            (headerLines name ++ se.flatMap (eventLines now) ++ ["END:VCALENDAR"]) ++ "\r\n"))
    ∧ ((∀ e ∈ events, e.start.offsetMinutes.isSome = true) →
      ∀ se, sortByStart events = .ok se →
        List.Pairwise (fun a b : Event => instantSec a.start ≤ instantSec b.start) se)
    ∧ ((∀ e ∈ events, e.start.offsetMinutes = none ∧ dtValid e.start) →
      ∀ se, sortByStart events = .ok se →
        List.Pairwise (fun a b : Event => instantSec a.start ≤ instantSec b.start) se)
    ∧ ((∃ e ∈ events, e.start.offsetMinutes = none) →
      (∃ e ∈ events, e.start.offsetMinutes.isSome = true) →
        build_ics name events now = .error .typeErrorNaiveAware) := by
  refine ⟨?_, ?_, ?_, ?_⟩
  · intro se hse
    rw [build_ics, hse]
  · intro hall se hse
    have hnn : hasNaiveStart events = false := by
      rw [hasNaiveStart, List.any_eq_false]
      intro e he
      have h := hall e he
      revert h
      cases e.start.offsetMinutes <;> simp
    rw [sortByStart, hnn] at hse
    simp only [Bool.false_and, Bool.false_eq_true, if_false] at hse
    injection hse with hse
    subst hse
    haveI : IsTotal Event (fun a b : Event => instantSec a.start ≤ instantSec b.start) :=
      ⟨fun a b => by omega⟩
    haveI : IsTrans Event (fun a b : Event => instantSec a.start ≤ instantSec b.start) :=
      ⟨fun a b c hab hbc => by omega⟩
    exact List.sorted_insertionSort (fun a b : Event => instantSec a.start ≤ instantSec b.start)
      events
  · intro hall se hse
    have hna : hasAwareStart events = false := by
      rw [hasAwareStart, List.any_eq_false]
      intro e he
      have h := (hall e he).1
      revert h
      cases e.start.offsetMinutes <;> simp
    rw [sortByStart, hna] at hse
    simp only [Bool.and_false, Bool.false_eq_true, if_false] at hse
    haveI : IsTotal Event (fun a b : Event => naiveDtLe a.start b.start) :=
      ⟨fun a b => by rw [naiveDtLe, naiveDtLe]; omega⟩
    haveI : IsTrans Event (fun a b : Event => naiveDtLe a.start b.start) :=
      ⟨fun a b c hab hbc => by rw [naiveDtLe] at *; omega⟩
    cases hhn : hasNaiveStart events with
    | true =>
      rw [hhn, if_pos rfl] at hse
      injection hse with hse
      subst hse
      have hs := List.sorted_insertionSort (fun a b : Event => naiveDtLe a.start b.start) events
      have hperm := List.perm_insertionSort (fun a b : Event => naiveDtLe a.start b.start) events
      refine hs.imp_of_mem ?_
      intro a b ha hb hr
      have hma := hperm.mem_iff.mp ha
      have hmb := hperm.mem_iff.mp hb
      exact instantSec_le_of_naive_lex a.start b.start (hall a hma).1 (hall b hmb).1
        (hall a hma).2 (hall b hmb).2 hr
    | false =>
      cases events with
      | nil =>
        rw [hhn] at hse
        simp only [Bool.false_eq_true, if_false] at hse
        injection hse with hse
        subst hse
        exact List.Pairwise.nil
      | cons e es =>
        exfalso
        have h := (hall e (by simp)).1
        rw [hasNaiveStart, List.any_eq_false] at hhn
        have := hhn e (by simp)
        simp [h] at this
  · intro ⟨e1, he1, hn1⟩ ⟨e2, he2, hs2⟩
    have h1 : hasNaiveStart events = true := by
      rw [hasNaiveStart, List.any_eq_true]
      exact ⟨e1, he1, by simp [hn1]⟩
    have h2 : hasAwareStart events = true := by
      rw [hasAwareStart, List.any_eq_true]
      exact ⟨e2, he2, hs2⟩
    rw [build_ics, sortByStart, h1, h2]
    rfl

/-- Witness for C6: an all-aware two-event list given in reverse order; the
serializer succeeds and the sorted order is non-decreasing in start instant. -/
theorem claim_C6_witness :
    List.Pairwise (fun a b : Event => instantSec a.start ≤ instantSec b.start)
      [⟨"B", ⟨2026, 1, 1, 0, 0, 0, some 0⟩, none, "", ""⟩,
       ⟨"A", ⟨2026, 1, 2, 0, 0, 0, some 0⟩, none, "", ""⟩] :=
  (claim_C6 "Cal"
      [⟨"A", ⟨2026, 1, 2, 0, 0, 0, some 0⟩, none, "", ""⟩,
       ⟨"B", ⟨2026, 1, 1, 0, 0, 0, some 0⟩, none, "", ""⟩]
      ⟨2026, 1, 1, 0, 0, 0, some 0⟩).2.1 (by decide)
    [⟨"B", ⟨2026, 1, 1, 0, 0, 0, some 0⟩, none, "", ""⟩,
     ⟨"A", ⟨2026, 1, 2, 0, 0, 0, some 0⟩, none, "", ""⟩] rfl

/-- The cursor update the claim describes for the heuristic scanner: past the
consumed game line when one was found, one line forward otherwise. -/
def claimedNextCursor (lines : List String) (i : Nat) : Nat :=
  if fixturesDtMatch (lines.getD i "") then
    let j := findGameIdx lines (i + 1)
    if j < lines.length then j + 1 else i + 1
  else i + 1

/-- Counterexample for C7: on a concrete page the scanner's cursor moves *to*
the found game line (`i = j`, line 204), not *past* it, and on an anchor with
no following game line it jumps to the end of the sequence, not one line
forward; so the claimed cursor update differs from the code's. -/
theorem claim_C7_counterexample :
    ¬ (∀ lines : List String, ∀ i, i < lines.length →
        nextCursor lines i = claimedNextCursor lines i) :=
  fun h => absurd
    (h ["11 Jan 2026 12:00 +00:00", "Arsenal - Chelsea", "ignored noise"] 0 (by decide))
    (by decide)

/-- Claim C7, amended.  The scan still terminates in O(n): on every iteration
the cursor strictly advances (to the found game line's index, to the end of
the sequence when an anchor has no game line, or by one line otherwise) and
never leaves `[0, length]`, so it never revisits a cursor position and the
loop runs at most `length` iterations. -/
theorem claim_C7 (lines : List String) (i : Nat) (h : i < lines.length) :
    i < nextCursor lines i ∧ nextCursor lines i ≤ lines.length
    ∧ nextCursor lines i
      = (if fixturesDtMatch (lines.getD i "") then
          (if findGameIdx lines (i + 1) < lines.length then findGameIdx lines (i + 1)
           else lines.length)
        else i + 1) := by
  have hge : i + 1 ≤ findGameIdx lines (i + 1) := by
    rw [findGameIdx]
    exact findGameIdxF_ge lines (lines.length - (i + 1)) (i + 1)
  have hle : findGameIdx lines (i + 1) ≤ lines.length := by
    rw [findGameIdx]
    exact findGameIdxF_le lines (lines.length - (i + 1)) (i + 1) (by omega)
  refine ⟨nextCursor_gt lines i, ?_, ?_⟩
  · rw [nextCursor]
    split
    · dsimp only
      split
      · exact hle
      · omega
    · omega
  · rw [nextCursor]
    split
    · dsimp only
      split_ifs <;> omega
    · rfl

/-- Witness for C7 at a concrete page and cursor position. -/
theorem claim_C7_witness :
    0 < nextCursor ["11 Jan 2026 12:00 +00:00", "Arsenal - Chelsea"] 0
    ∧ nextCursor ["11 Jan 2026 12:00 +00:00", "Arsenal - Chelsea"] 0
      ≤ (["11 Jan 2026 12:00 +00:00", "Arsenal - Chelsea"] : List String).length
    ∧ nextCursor ["11 Jan 2026 12:00 +00:00", "Arsenal - Chelsea"] 0
      = (if fixturesDtMatch ((["11 Jan 2026 12:00 +00:00",
            "Arsenal - Chelsea"] : List String).getD 0 "") then
          (if findGameIdx ["11 Jan 2026 12:00 +00:00", "Arsenal - Chelsea"] 1
              < (["11 Jan 2026 12:00 +00:00", "Arsenal - Chelsea"] : List String).length then
            findGameIdx ["11 Jan 2026 12:00 +00:00", "Arsenal - Chelsea"] 1
           else (["11 Jan 2026 12:00 +00:00", "Arsenal - Chelsea"] : List String).length)
        else 0 + 1) :=
  claim_C7 ["11 Jan 2026 12:00 +00:00", "Arsenal - Chelsea"] 0 (by decide)

/-- Claim C8.  On the three-line input, for every fallback location and page
URL, the heuristic extractor returns exactly one event titled
`"Arsenal - Chelsea"` starting 2026-01-11T12:00:00+00:00 and ending exactly
2h30m (9000 seconds) later, at 2026-01-11T14:30:00+00:00. -/
theorem claim_C8 (loc url : String) :
    events_from_fixtures ["11 Jan 2026 12:00 +00:00", "Arsenal - Chelsea", "ignored noise"]
        [] loc url
      = [⟨"Arsenal - Chelsea", ⟨2026, 1, 11, 12, 0, 0, some 0⟩,
          some ⟨2026, 1, 11, 14, 30, 0, some 0⟩, loc, url⟩]
    ∧ (⟨2026, 1, 11, 14, 30, 0, some 0⟩ : PyDateTime)
      = addMinutes ⟨2026, 1, 11, 12, 0, 0, some 0⟩ 150
    ∧ instantSec ⟨2026, 1, 11, 14, 30, 0, some 0⟩
      = instantSec ⟨2026, 1, 11, 12, 0, 0, some 0⟩ + 9000 := by
  refine ⟨rfl, rfl, by decide⟩

/-- Claim C9.  The fetcher never propagates a transport fault: it is a total
function of the attempt outcomes that returns the body of the first successful
attempt, retries exactly once (it consults no attempt beyond the first two),
and returns the empty-string sentinel when both attempts fail. -/
theorem claim_C9 (attempts : Nat → FetchOutcome) :
    (∀ body, attempts 0 = .success body → http_get attempts = body)
    ∧ (∀ body, attempts 0 = .failure → attempts 1 = .success body → http_get attempts = body)
    ∧ (attempts 0 = .failure → attempts 1 = .failure → http_get attempts = "")
    ∧ (∀ attempts2 : Nat → FetchOutcome, attempts 0 = attempts2 0 → attempts 1 = attempts2 1 →
        http_get attempts = http_get attempts2) := by
  refine ⟨?_, ?_, ?_, ?_⟩
  · intro body h0
    rw [http_get, h0]
  · intro body h0 h1
    rw [http_get, h0, h1]
  · intro h0 h1
    rw [http_get, h0, h1]
  · intro attempts2 h0 h1
    rw [http_get, http_get, h0, h1]

/-- Witness for C9: a first attempt that fails and a second that succeeds. -/
theorem claim_C9_witness :
    http_get (fun n => if n = 0 then FetchOutcome.failure else .success "ok") = "ok" :=
  (claim_C9 (fun n => if n = 0 then FetchOutcome.failure else .success "ok")).2.1 "ok" rfl rfl

/-- Counterexample for C10: a candidate whose `name` is present but
whitespace-only is emitted with an *empty* title — `str(obj.get("name") or
"Event")` only defaults an absent or falsy name, and `.strip()` then empties
the whitespace string. -/
theorem claim_C10_counterexample :
    ∃ e, e ∈ events_from_jsonld
        [.obj [("@type", .str "Event"), ("name", .str " "),
               ("startDate", .str "2026-05-01T19:00:00+01:00")]] "Wembley"
      ∧ e.title = "" :=
  ⟨⟨"", ⟨2026, 5, 1, 19, 0, 0, some 60⟩, none, "Wembley", ""⟩, by decide, rfl⟩

/-- Claim C10, amended.  Whenever the candidate's `name` field is absent, the
Structured-Data Extractor titles the resulting event `"Event"` (in particular
non-empty); a present whitespace-only name, however, produces an empty title
(see the counterexample), so titles are not non-empty in general. -/
theorem claim_C10 (default_location : String) (fields : List (String × PyJson))
    (hname : jlookup fields "name" = none) (e : Event)
    (h : eventOfCandidate default_location (.obj fields) = some e) :
    e.title = "Event" := by
  rw [eventOfCandidate] at h
  split at h
  · split at h
    · cases h
    · rename_i sdt heq
      injection h with h2
      subst h2
      show nameOf fields = "Event"
      rw [nameOf, hname]
      rfl
  · cases h

/-- Witness for C10: a concrete candidate with no `name` field. -/
theorem claim_C10_witness :
    (⟨"Event", ⟨2026, 5, 1, 19, 0, 0, some 60⟩, none, "Loc", ""⟩ : Event).title = "Event" :=
  claim_C10 "Loc" [("@type", .str "Event"), ("startDate", .str "2026-05-01T19:00:00+01:00")]
    rfl _ rfl
